import Mathlib

/-!
Shallow embedding of the task-tracking core of the repository
(Task entity, JSON-file storage, TaskManager business logic).

Sources embedded:
- `src/session4_model4/models.py` — `TaskStatus`, `TaskPriority`, `Task`
  (`validate`, `to_dict`, `from_dict`) and `validate_task_data`.
- `src/session4_model4/storage.py` — `JSONStorage` (`_load`, `get_all`,
  `save`, `delete`), modelled in namespace `S4`.
- `src/session1_model2/storage.py` — `JSONStorage` (`_load`, `get_all`,
  `get_by_id`, `save`), modelled in namespace `S1`.
- `src/session1_model2/task_manager.py` — `TaskManager` (`create_task`,
  `get_all_tasks`, `update_task`), modelled in namespace `TaskManager`.
  That variant imports its model types from a `models` module whose
  behaviour is shared with `session4_model4/models.py`; the definitions
  below are used for both.

Modelling conventions:
- Python `datetime` instants are modelled as `Nat`; `datetime.isoformat`
  / `datetime.fromisoformat` are modelled by an injective decimal
  printer `isoformat` and its partial-inverse parser `fromisoformat`
  (the standard-library pair is documented to round-trip, and a
  non-empty non-timestamp string fails to parse).
- A Python task dictionary is modelled by `TaskData`, with `Option`
  fields for key presence.  Per the persisted file format (spec section 6),
  field values are strings except `description`, which is nullable, so
  `description` is `Option (Option String)` (outer: key present,
  inner: value or JSON null) and all other fields are `Option String`.
- Exceptions are modelled with `Except`; `ApiError` mirrors the
  distinct `ValueError` messages raised by the Python code.
- Fresh-identifier (`uuid.uuid4()`) and current-time
  (`datetime.utcnow()`) effects are passed explicitly as the arguments
  `freshId` and `now`.
-/

namespace TaskApp

/-! ### Model of Python datetime serialization -/

/-- One decimal digit as a character (used by the `isoformat` model). -/
def digitChar (d : Nat) : Char :=
  Char.ofNat (48 + d)

/-- Numeric value of a decimal digit character, `none` otherwise. -/
def digitVal (c : Char) : Option Nat :=
  if 48 ≤ c.toNat ∧ c.toNat ≤ 57 then some (c.toNat - 48) else none

/-- Fuel-driven digit printer (structural recursion keeps it
kernel-computable); `fuel` bounds the number of digits produced. -/
def natToDigitsAux (fuel n : Nat) : List Char :=
  match fuel with
  | 0 => []
  | fuel + 1 =>
    if n < 10 then [digitChar n]
    else natToDigitsAux fuel (n / 10) ++ [digitChar (n % 10)]

/-- Decimal digit string of a natural number, most significant first. -/
def natToDigits (n : Nat) : List Char :=
  natToDigitsAux (n + 1) n

/-- Parser accumulator over decimal digit characters. -/
def digitsToNatAux (acc : Nat) : List Char → Option Nat
  | [] => some acc
  | c :: cs =>
    match digitVal c with
    | some d => digitsToNatAux (acc * 10 + d) cs
    | none => none

/-- Model of `datetime.isoformat()`: an injective textual encoding of
the instant. -/
def isoformat (n : Nat) : String :=
  String.mk (natToDigits n)

/-- Model of `datetime.fromisoformat`: parses the textual encoding back;
fails on the empty string and on any string outside the encoding. -/
def fromisoformat (s : String) : Option Nat :=
  match s.data with
  | [] => none
  | l => digitsToNatAux 0 l

/-! ### `models.py`: enums -/

/-- `class TaskStatus(Enum)` from `session4_model4/models.py`. -/
inductive TaskStatus where
  | pending
  | inProgress
  | completed
deriving DecidableEq, Repr

/-- The `.value` of a `TaskStatus` member. -/
def TaskStatus.value : TaskStatus → String
  | .pending => "pending"
  | .inProgress => "in-progress"
  | .completed => "completed"

/-- `[s.value for s in TaskStatus]`. -/
def TaskStatus.allValues : List String :=
  [TaskStatus.pending.value, TaskStatus.inProgress.value, TaskStatus.completed.value]

/-- The `TaskStatus(s)` enum constructor: `none` models the `ValueError`
raised on a non-member value. -/
def TaskStatus.ofString? : String → Option TaskStatus
  | "pending" => some .pending
  | "in-progress" => some .inProgress
  | "completed" => some .completed
  | _ => none

/-- `class TaskPriority(Enum)` from `session4_model4/models.py`. -/
inductive TaskPriority where
  | low
  | medium
  | high
deriving DecidableEq, Repr

/-- The `.value` of a `TaskPriority` member. -/
def TaskPriority.value : TaskPriority → String
  | .low => "low"
  | .medium => "medium"
  | .high => "high"

/-- `[p.value for p in TaskPriority]`. -/
def TaskPriority.allValues : List String :=
  [TaskPriority.low.value, TaskPriority.medium.value, TaskPriority.high.value]

/-- The `TaskPriority(p)` enum constructor: `none` models the
`ValueError` raised on a non-member value. -/
def TaskPriority.ofString? : String → Option TaskPriority
  | "low" => some .low
  | "medium" => some .medium
  | "high" => some .high
  | _ => none

/-! ### `models.py`: the Task dataclass and dict representation -/

/-- The `Task` dataclass (`session4_model4/models.py`). -/
structure Task where
  title : String
  description : Option String
  status : TaskStatus
  priority : TaskPriority
  id : String
  created_at : Nat
deriving DecidableEq, Repr

/-- A task dictionary (`Dict[str, Any]`): each field records whether the
key is present and, if so, its value.  `description` may be present with
a JSON-null value, hence the nested `Option`. -/
structure TaskData where
  id : Option String := none
  title : Option String := none
  description : Option (Option String) := none
  status : Option String := none
  priority : Option String := none
  created_at : Option String := none
deriving DecidableEq, Repr

/-- `Task.validate` (`session4_model4/models.py`, lines 49-68). -/
def Task.validate (t : Task) : List String :=
  (if t.title = "" then ["Title is required"]
   else if 200 < t.title.length then ["Title must be less than 200 characters"]
   else [])
  ++ (match t.description with
      | some d => if 1000 < d.length then ["Description must be less than 1000 characters"] else []
      | none => [])

/-- `Task.to_dict` (`session4_model4/models.py`, lines 70-84). -/
def Task.to_dict (t : Task) : TaskData :=
  { id := some t.id
    title := some t.title
    description := some t.description
    status := some t.status.value
    priority := some t.priority.value
    created_at := some (isoformat t.created_at) }

/-- The status-conversion block of `Task.from_dict` (lines 101-104):
default `PENDING` when the key is absent or its value falsy, otherwise
the `TaskStatus(...)` constructor, whose `ValueError` propagates. -/
def parseStatusField (v : Option String) : Except String TaskStatus :=
  match v with
  | some s =>
    if s = "" then Except.ok TaskStatus.pending
    else
      match TaskStatus.ofString? s with
      | some st => Except.ok st
      | none => Except.error ("Invalid task data: " ++ s ++ " is not a valid TaskStatus")
  | none => Except.ok TaskStatus.pending

/-- The priority-conversion block of `Task.from_dict` (lines 106-109). -/
def parsePriorityField (v : Option String) : Except String TaskPriority :=
  match v with
  | some p =>
    if p = "" then Except.ok TaskPriority.medium
    else
      match TaskPriority.ofString? p with
      | some pr => Except.ok pr
      | none => Except.error ("Invalid task data: " ++ p ++ " is not a valid TaskPriority")
  | none => Except.ok TaskPriority.medium

/-- The created_at-conversion block of `Task.from_dict` (lines
111-114): default `utcnow` (the `now` argument) when the key is absent
or its value falsy, otherwise `datetime.fromisoformat`, whose
`ValueError` propagates. -/
def parseCreatedField (v : Option String) (now : Nat) : Except String Nat :=
  match v with
  | some s =>
    if s = "" then Except.ok now
    else
      match fromisoformat s with
      | some d => Except.ok d
      | none => Except.error ("Invalid task data: Invalid isoformat string: " ++ s)
  | none => Except.ok now

/-- `Task.from_dict` (`session4_model4/models.py`, lines 86-125).
An empty or missing `status`/`priority`/`created_at` value is defaulted
(`pending`/`medium`/`now`); a non-empty invalid enum value or a
non-empty unparsable timestamp raises `ValueError`, modelled as
`Except.error`.  `freshId` models the `uuid.uuid4()` default for a
missing `id`; `now` models `datetime.utcnow()`. -/
def Task.from_dict (data : TaskData) (freshId : String) (now : Nat) : Except String Task :=
  (parseStatusField data.status).bind (fun status =>
  (parsePriorityField data.priority).bind (fun priority =>
  (parseCreatedField data.created_at now).bind (fun created_at =>
  Except.ok
    { id := data.id.getD freshId
      title := data.title.getD ""
      description := (data.description.getD none)
      status := status
      priority := priority
      created_at := created_at })))

/-- `validate_task_data(data, partial)` (`session4_model4/models.py`,
lines 128-156).  The Boolean `partialMode` argument models the Python
keyword argument named after partial updates (a reserved word in Lean). -/
def validate_task_data (data : TaskData) (partialMode : Bool) : List String :=
  (if !partialMode then
     (if data.title.getD "" = "" then ["Title is required"]
      else if 200 < (data.title.getD "").length then ["Title must be less than 200 characters"]
      else [])
   else [])
  ++ (match data.status with
      | some s =>
        if s ∈ TaskStatus.allValues then []
        else ["Invalid status. Must be: pending, in-progress, or completed"]
      | none => [])
  ++ (match data.priority with
      | some p =>
        if p ∈ TaskPriority.allValues then []
        else ["Invalid priority. Must be: low, medium, or high"]
      | none => [])
  ++ (match data.description with
      | some (some d) =>
        if 1000 < d.length then ["Description must be less than 1000 characters"] else []
      | _ => [])

/-! ### Storage: common infrastructure -/

/-- Decidable equality of `Except` results, used to evaluate concrete
runs of the embedded operations. -/
instance exceptDecEq {e a : Type} [DecidableEq e] [DecidableEq a] :
    DecidableEq (Except e a) := fun x y =>
  match x, y with
  | .ok v, .ok w =>
    if h : v = w then isTrue (h ▸ rfl) else isFalse (fun hc => h (Except.ok.inj hc))
  | .error v, .error w =>
    if h : v = w then isTrue (h ▸ rfl) else isFalse (fun hc => h (Except.error.inj hc))
  | .ok _, .error _ => isFalse (fun hc => Except.noConfusion hc)
  | .error _, .ok _ => isFalse (fun hc => Except.noConfusion hc)

/-- Errors raised by the storage and task-manager layers, one
constructor per distinct `ValueError` message shape in the source. -/
inductive ApiError where
  /-- `TaskManager`: `ValueError("Validation error: ...")` carrying the
  list of violation messages. -/
  | validation (errors : List String)
  /-- `JSONStorage.save` (session1_model2): `ValueError("Invalid task
  data: ...")` carrying the list of violation messages. -/
  | invalidTaskData (errors : List String)
  /-- `TaskManager.update_task`: `ValueError("Task not found: ...")`. -/
  | notFound (task_id : String)
  /-- `TaskManager.get_all_tasks`: `ValueError("Invalid status filter: ...")`. -/
  | invalidStatusFilter (v : String)
  /-- `TaskManager.get_all_tasks`: `ValueError("Invalid priority filter: ...")`. -/
  | invalidPriorityFilter (v : String)
  /-- `TaskManager.update_task`: `ValueError("Invalid status: ...")`. -/
  | invalidStatus (v : String)
  /-- `TaskManager.update_task`: `ValueError("Invalid priority: ...")`. -/
  | invalidPriority (v : String)
  /-- `TaskManager.create_task`: `ValueError("Invalid enum value: ...")`. -/
  | invalidEnum (v : String)
deriving DecidableEq, Repr

/-- The in-scope states of the backing JSON file, as used by the
task-manager layer: either content that `json.load` rejects
(`unparsable`, covering `json.JSONDecodeError` and
`FileNotFoundError`), or a decoded JSON array of task records.
Content that decodes to a non-array JSON value makes both variants
raise through the out-of-scope `StorageIOError` channel; it is
modelled separately by `FileContent` for the load-time claims. -/
inductive RawFile where
  | unparsable
  | parsed (records : List TaskData)
deriving DecidableEq, Repr

/-- Model of `json.load(f)` restricted to the in-scope states of
`RawFile`: returns the decoded records or raises (see `FileContent`
for the full decoded-value model). -/
def jsonLoad : RawFile → Except String (List TaskData)
  | .unparsable => Except.error "JSONDecodeError"
  | .parsed rs => Except.ok rs

/-- The shared upsert loop of both `JSONStorage.save` implementations:
replace the first element satisfying `p` in place, otherwise append. -/
def replaceFirst {α : Type} (p : α → Bool) (a : α) : List α → List α
  | [] => [a]
  | x :: xs => if p x then a :: xs else x :: replaceFirst p a xs

/-! ### `session4_model4/storage.py` (`JSONStorage`) -/

namespace S4

/-- `JSONStorage._load` (session4_model4, lines 97-115): parse the file
and convert every record with `Task.from_dict`; on a parse error or any
record-conversion `ValueError`, return `[]` and rewrite the file to an
empty array.  Returns the loaded tasks together with the file content
after the call. -/
def load (f : RawFile) (freshId : String) (now : Nat) : List Task × RawFile :=
  match jsonLoad f with
  | Except.error _ => ([], RawFile.parsed [])
  | Except.ok data =>
    match data.mapM (fun d => Task.from_dict d freshId now) with
    | Except.ok ts => (ts, f)
    | Except.error _ => ([], RawFile.parsed [])

/-- `JSONStorage.get_all` (session4_model4, lines 137-145). -/
def get_all (f : RawFile) (freshId : String) (now : Nat) : List Task :=
  (load f freshId now).1

/-- `JSONStorage.save` (session4_model4, lines 164-189), acting on the
loaded collection: replace the record with the same id in place, else
append.  No validation is performed. -/
def save (tasks : List Task) (t : Task) : List Task :=
  replaceFirst (fun x => x.id == t.id) t tasks

end S4

/-! ### `session1_model2/storage.py` (`JSONStorage`) -/

namespace S1

/-- `JSONStorage._load` (session1_model2, lines 59-76): parse the file,
returning `[]` if it is missing or corrupted (the file is not rewritten
in this variant). -/
def load (f : RawFile) : List TaskData :=
  match jsonLoad f with
  | Except.ok d => d
  | Except.error _ => []

/-- `JSONStorage.get_all` (session1_model2, lines 102-121): convert each
record, skipping entries whose conversion raises `ValueError`. -/
def get_all (f : RawFile) (freshId : String) (now : Nat) : List Task :=
  (load f).filterMap (fun d => (Task.from_dict d freshId now).toOption)

/-- Scanning loop of `JSONStorage.get_by_id` (session1_model2, lines
133-142): first record with the requested id whose conversion succeeds;
invalid entries are skipped. -/
def find_by_id (task_id freshId : String) (now : Nat) : List TaskData → Option Task
  | [] => none
  | d :: ds =>
    if d.id = some task_id then
      match Task.from_dict d freshId now with
      | Except.ok t => some t
      | Except.error _ => find_by_id task_id freshId now ds
    else find_by_id task_id freshId now ds

/-- `JSONStorage.get_by_id` (session1_model2, lines 123-144). -/
def get_by_id (f : RawFile) (task_id freshId : String) (now : Nat) : Option Task :=
  find_by_id task_id freshId now (load f)

/-- `JSONStorage.save` (session1_model2, lines 146-180): validate the
task first and raise `ValueError` if invalid; otherwise upsert its dict
into the loaded array and persist.  Returns the file content after the
call. -/
def save (f : RawFile) (t : Task) : Except ApiError RawFile :=
  let errors := t.validate
  if errors.isEmpty then
    Except.ok (RawFile.parsed (replaceFirst (fun d => d.id == some t.id) t.to_dict (load f)))
  else Except.error (ApiError.invalidTaskData errors)

end S1

/-! ### Full model of the backing file content (load-time behaviour)

`json.load` succeeds on any JSON document, not only on arrays.  The
definitions below extend the load path of both storage variants to
every decoded shape, to settle what `get_all` does on content that is
not an array of task objects. -/

/-- An exception raised on non-array content. -/
inductive PyException where
  /-- An exception the session4_model4 `_load` does not catch (its
  `except` clause lists only `JSONDecodeError`, `FileNotFoundError` and
  `ValueError`): `TypeError` from iterating a non-iterable value or
  from indexing into a string item, or `AttributeError` from calling
  `.get` on a non-dict item inside `Task.from_dict`. -/
  | uncaught
  /-- The `IOError` with which session1_model2's `get_all` (lines
  120-121) wraps any failure other than a skippable per-record
  `ValueError`. -/
  | ioError
deriving DecidableEq, Repr

/-- Everything `json.load` can hand back to `_load`, by how the
`for task_dict in data` iteration treats it:

* `undecodable` — `json.load` itself raises (`JSONDecodeError`), or the
  file is missing (`FileNotFoundError`);
* `decodedAtom` — a number, boolean or null: iterating it raises
  `TypeError`;
* `decodedStrings items` — a JSON object (iterating yields its keys) or
  a JSON string (iterating yields its characters): every item is a
  plain string, on which `Task.from_dict` raises an exception
  (`AttributeError` from `.get`, or `TypeError` when the text happens
  to contain a field name) that is not the `ValueError` the callers
  catch; an empty object or empty string iterates to nothing;
* `decodedArray records` — a JSON array of task objects. -/
inductive FileContent where
  | undecodable
  | decodedAtom
  | decodedStrings (items : List String)
  | decodedArray (records : List TaskData)
deriving DecidableEq, Repr

/-- `JSONStorage._load` (session4_model4, lines 97-115) on the full
content model: the `except` clause catches only decode failures and
record-level `ValueError` (returning `[]` and rewriting the file);
exceptions from iterating a non-array value or converting a non-dict
item escape.  Returns the loaded tasks and the file content after the
call, or the escaping exception. -/
def S4.loadFull (c : FileContent) (freshId : String) (now : Nat) :
    Except PyException (List Task × FileContent) :=
  match c with
  | .undecodable => Except.ok ([], .decodedArray [])
  | .decodedAtom => Except.error .uncaught
  | .decodedStrings items =>
    if items.isEmpty then Except.ok ([], c) else Except.error .uncaught
  | .decodedArray records =>
    match records.mapM (fun d => Task.from_dict d freshId now) with
    | Except.ok ts => Except.ok (ts, c)
    | Except.error _ => Except.ok ([], .decodedArray [])

/-- `JSONStorage.get_all` (session4_model4, lines 137-145) on the full
content model: returns what `_load` returns, propagating its
exceptions. -/
def S4.get_allFull (c : FileContent) (freshId : String) (now : Nat) :
    Except PyException (List Task) :=
  (S4.loadFull c freshId now).map (fun r => r.1)

/-- `JSONStorage.get_all` (session1_model2, lines 102-121) on the full
content model: `_load` turns only decode failures into `[]`; the
conversion loop skips per-record `ValueError` but any other exception
(iterating a non-iterable, converting a non-dict item) reaches the
outer handler, which raises `IOError`. -/
def S1.get_allFull (c : FileContent) (freshId : String) (now : Nat) :
    Except PyException (List Task) :=
  match c with
  | .undecodable => Except.ok []
  | .decodedAtom => Except.error .ioError
  | .decodedStrings items =>
    if items.isEmpty then Except.ok [] else Except.error .ioError
  | .decodedArray records =>
    Except.ok (records.filterMap (fun d => (Task.from_dict d freshId now).toOption))

/-! ### `session1_model2/task_manager.py` (`TaskManager`), backed by the
session1_model2 `JSONStorage` -/

namespace TaskManager

/-- Truthiness of an `Optional[str]` in Python: `None` and `""` are
falsy. -/
def truthy : Option String → Bool
  | none => false
  | some s => s ≠ ""

/-- `TaskManager.create_task` (session1_model2, lines 28-72):
validate the request fields, construct the enums and the `Task`
(`freshId` models `uuid.uuid4()`, `now` models `datetime.utcnow()`),
then persist through `storage.save`.  Returns the new file content and
the created task. -/
def create_task (f : RawFile) (title : String) (description : Option String)
    (status : String) (priority : String) (freshId : String) (now : Nat) :
    Except ApiError (RawFile × Task) :=
  let task_data : TaskData :=
    { title := some title
      description := some description
      status := some status
      priority := some priority }
  let errors := validate_task_data task_data false
  if errors.isEmpty then
    match TaskStatus.ofString? status, TaskPriority.ofString? priority with
    | some task_status, some task_priority =>
      let task : Task :=
        { title := title
          description := description
          status := task_status
          priority := task_priority
          id := freshId
          created_at := now }
      (S1.save f task).map (fun f2 => (f2, task))
    | _, _ => Except.error (ApiError.invalidEnum (status ++ "/" ++ priority))
  else Except.error (ApiError.validation errors)

/-- Status-filter application step of `get_all_tasks` (session1_model2,
lines 111-113): `TaskStatus(status_filter)` then filter by equality. -/
def statusStep (tasks : List Task) (status_filter : Option String) :
    Except ApiError (List Task) :=
  if truthy status_filter then
    match TaskStatus.ofString? (status_filter.getD "") with
    | some e => Except.ok (tasks.filter (fun t => t.status == e))
    | none => Except.error (ApiError.invalidEnum (status_filter.getD ""))
  else Except.ok tasks

/-- Priority-filter application step of `get_all_tasks`
(session1_model2, lines 115-117). -/
def priorityStep (tasks : List Task) (priority_filter : Option String) :
    Except ApiError (List Task) :=
  if truthy priority_filter then
    match TaskPriority.ofString? (priority_filter.getD "") with
    | some e => Except.ok (tasks.filter (fun t => t.priority == e))
    | none => Except.error (ApiError.invalidEnum (priority_filter.getD ""))
  else Except.ok tasks

/-- `TaskManager.get_all_tasks` (session1_model2, lines 86-119):
validate supplied (truthy) filter values against the closed sets, then
load all tasks and apply the filters in sequence. -/
def get_all_tasks (f : RawFile) (status_filter priority_filter : Option String)
    (freshId : String) (now : Nat) : Except ApiError (List Task) :=
  if truthy status_filter ∧ status_filter.getD "" ∉ TaskStatus.allValues then
    Except.error (ApiError.invalidStatusFilter (status_filter.getD ""))
  else if truthy priority_filter ∧ priority_filter.getD "" ∉ TaskPriority.allValues then
    Except.error (ApiError.invalidPriorityFilter (priority_filter.getD ""))
  else
    (statusStep (S1.get_all f freshId now) status_filter).bind
      (fun ts => priorityStep ts priority_filter)

/-- Field-patch application of `update_task` (session1_model2, lines
145-162): apply `title` and `description` when present, then convert
and apply `status` and `priority`, raising on an invalid enum value. -/
def applyUpdates (task : Task) (updates : TaskData) : Except ApiError Task :=
  let t1 := match updates.title with
    | some s => { task with title := s }
    | none => task
  let t2 := match updates.description with
    | some v => { t1 with description := v }
    | none => t1
  (match updates.status with
   | some s =>
     match TaskStatus.ofString? s with
     | some e => Except.ok { t2 with status := e }
     | none => Except.error (ApiError.invalidStatus s)
   | none => Except.ok t2).bind (fun t3 =>
  match updates.priority with
  | some p =>
    match TaskPriority.ofString? p with
    | some e => Except.ok { t3 with priority := e }
    | none => Except.error (ApiError.invalidPriority p)
  | none => Except.ok t3)

/-- `TaskManager.update_task` (session1_model2, lines 121-171): fetch
the task (not-found error if absent), validate the patch in partial
mode, apply only the supplied fields, re-validate the full task and
persist it.  Returns the new file content and the updated task. -/
def update_task (f : RawFile) (task_id : String) (updates : TaskData)
    (freshId : String) (now : Nat) : Except ApiError (RawFile × Task) :=
  match S1.get_by_id f task_id freshId now with
  | none => Except.error (ApiError.notFound task_id)
  | some task =>
    let errors := validate_task_data updates true
    if errors.isEmpty then
      (applyUpdates task updates).bind (fun t4 =>
        let validation_errors := t4.validate
        if validation_errors.isEmpty then
          (S1.save f t4).map (fun f2 => (f2, t4))
        else Except.error (ApiError.validation validation_errors))
    else Except.error (ApiError.validation errors)

end TaskManager

/-! ### Spec-side predicates used to state the claims -/

/-- Spec rule: title missing/empty (Python: `not data.get("title")`). -/
def titleRequiredViolated (d : TaskData) : Bool :=
  d.title.getD "" == ""

/-- Spec rule: title length exceeds 200 characters. -/
def titleLengthViolated (d : TaskData) : Bool :=
  decide (200 < (d.title.getD "").length)

/-- Spec rule: status present and outside the closed status set. -/
def statusRuleViolated (d : TaskData) : Bool :=
  match d.status with
  | some s => decide (s ∉ TaskStatus.allValues)
  | none => false

/-- Spec rule: priority present and outside the closed priority set. -/
def priorityRuleViolated (d : TaskData) : Bool :=
  match d.priority with
  | some p => decide (p ∉ TaskPriority.allValues)
  | none => false

/-- Spec rule: description present, non-null and longer than 1000
characters. -/
def descriptionRuleViolated (d : TaskData) : Bool :=
  match d.description with
  | some (some s) => decide (1000 < s.length)
  | _ => false

/-- The status value of a record map is absent, empty, or a member of
the closed set (exactly when `from_dict` does not fail on it). -/
def statusParses (d : TaskData) : Bool :=
  match d.status with
  | some s => s == "" || (TaskStatus.ofString? s).isSome
  | none => true

/-- The priority value of a record map is absent, empty, or a member of
the closed set. -/
def priorityParses (d : TaskData) : Bool :=
  match d.priority with
  | some p => p == "" || (TaskPriority.ofString? p).isSome
  | none => true

/-- The timestamp of a record map is absent, empty, or parsable. -/
def createdParses (d : TaskData) : Bool :=
  match d.created_at with
  | some s => s == "" || (fromisoformat s).isSome
  | none => true

/-- A supplied filter value is acceptable: absent, empty (falsy), or a
member of the respective closed set. -/
def filterOk (v : Option String) (vals : List String) : Bool :=
  !(TaskManager.truthy v) || vals.contains (v.getD "")

/-- A task matches a status filter: no truthy filter supplied, or the
status serializes to the filter value. -/
def matchesStatus (sf : Option String) (t : Task) : Bool :=
  !(TaskManager.truthy sf) || t.status.value == sf.getD ""

/-- A task matches a priority filter. -/
def matchesPriority (pf : Option String) (t : Task) : Bool :=
  !(TaskManager.truthy pf) || t.priority.value == pf.getD ""

/-! ### Concrete inputs used by counterexamples and witnesses -/

/-- A 201-character title. -/
def longTitle : String :=
  String.mk (List.replicate 201 'x')

/-- A 1001-character description. -/
def longDescription : String :=
  String.mk (List.replicate 1001 'x')

/-- An invalid task: its title is empty. -/
def invalidTask : Task :=
  { title := "", description := none, status := .pending, priority := .medium,
    id := "bad-1", created_at := 0 }

/-- A small valid task. -/
def sampleTask : Task :=
  { title := "Buy milk", description := none, status := .pending, priority := .medium,
    id := "id-1", created_at := 5 }

/-- The task of the spec's partial-update scenario: title "A",
priority low. -/
def lowTask : Task :=
  { title := "A", description := none, status := .pending, priority := .low,
    id := "u1", created_at := 3 }

/-- `lowTask` after an update whose patch sets status to completed. -/
def lowTaskDone : Task :=
  { lowTask with status := .completed }

/-- The task produced by `from_dict` on an empty record map with fresh
id "f" at time 7: every field defaulted. -/
def defaultedTask : Task :=
  { title := "", description := none, status := .pending, priority := .medium,
    id := "f", created_at := 7 }

/-- The patch of the spec scenario: only the status field, set to
completed. -/
def statusPatch : TaskData := { status := some "completed" }

/-- A completed high-priority task, used to exercise filters. -/
def doneTask : Task :=
  { title := "B", description := none, status := .completed, priority := .high,
    id := "id-2", created_at := 6 }

/-! ## Helper lemmas -/

theorem digitVal_digitChar (d : Nat) (h : d < 10) : digitVal (digitChar d) = some d := by
  interval_cases d <;> rfl

theorem digitsToNatAux_append (acc : Nat) (xs ys : List Char) :
    digitsToNatAux acc (xs ++ ys)
      = (digitsToNatAux acc xs).bind (fun m => digitsToNatAux m ys) := by
  induction xs generalizing acc with
  | nil => rfl
  | cons c cs ih =>
    cases h : digitVal c with
    | some d => simp [digitsToNatAux, h, ih]
    | none => simp [digitsToNatAux, h]

theorem digitsToNatAux_natToDigitsAux (fuel : Nat) :
    ∀ n, n < fuel → digitsToNatAux 0 (natToDigitsAux fuel n) = some n := by
  induction fuel with
  | zero => omega
  | succ fuel ih =>
    intro n hn
    by_cases h : n < 10
    · simp [natToDigitsAux, h, digitsToNatAux, digitVal_digitChar n h]
    · have hdiv : n / 10 < n := Nat.div_lt_self (by omega) (by omega)
      simp only [natToDigitsAux, h, if_false]
      rw [digitsToNatAux_append, ih (n / 10) (by omega)]
      simp [digitsToNatAux, digitVal_digitChar (n % 10) (Nat.mod_lt _ (by omega))]
      omega

theorem digitsToNatAux_natToDigits (n : Nat) :
    digitsToNatAux 0 (natToDigits n) = some n :=
  digitsToNatAux_natToDigitsAux (n + 1) n (by omega)

theorem natToDigits_ne_nil (n : Nat) : natToDigits n ≠ [] := by
  unfold natToDigits natToDigitsAux
  split <;> simp

theorem fromisoformat_isoformat (n : Nat) : fromisoformat (isoformat n) = some n := by
  have hd : (isoformat n).data = natToDigits n := rfl
  unfold fromisoformat
  rw [hd]
  cases h : natToDigits n with
  | nil => exact absurd h (natToDigits_ne_nil n)
  | cons c cs =>
    show digitsToNatAux 0 (c :: cs) = some n
    rw [← h]
    exact digitsToNatAux_natToDigits n

theorem isoformat_ne_empty (n : Nat) : isoformat n ≠ "" := by
  intro h
  have hd : (isoformat n).data = [] := by rw [h]
  exact natToDigits_ne_nil n hd

theorem count_ite (a : String) (c : Prop) [Decidable c] (l1 l2 : List String) :
    (if c then l1 else l2).count a = if c then l1.count a else l2.count a := by
  split <;> rfl

theorem replaceFirst_self {α : Type} (p : α → Bool) (a : α) (h : p a = true) :
    ∀ l : List α, replaceFirst p a (replaceFirst p a l) = replaceFirst p a l
  | [] => by simp [replaceFirst, h]
  | x :: xs => by
    by_cases hx : p x = true
    · simp [replaceFirst, hx, h]
    · simp [replaceFirst, hx, replaceFirst_self p a h xs]

theorem filter_replaceFirst {α : Type} (p : α → Bool) (a : α) (h : p a = true) :
    ∀ l : List α, (l.filter p).length ≤ 1 → (replaceFirst p a l).filter p = [a]
  | [], _ => by simp [replaceFirst, h]
  | x :: xs, hl => by
    by_cases hx : p x = true
    · have hxs : xs.filter p = [] := by
        rw [List.filter_cons_of_pos hx] at hl
        simp only [List.length_cons] at hl
        exact List.length_eq_zero.mp (by omega)
      simp [replaceFirst, hx, h, hxs]
    · rw [List.filter_cons_of_neg (by simpa using hx)] at hl
      simp [replaceFirst, hx, filter_replaceFirst p a h xs hl]

theorem mem_replaceFirst {α : Type} (p : α → Bool) (a x : α) :
    ∀ l : List α, x ∈ replaceFirst p a l → x = a ∨ x ∈ l
  | [] => by simp [replaceFirst]
  | y :: ys => by
    by_cases hy : p y = true
    · simp only [replaceFirst, hy, if_true]
      intro hx
      rcases List.mem_cons.mp hx with h1 | h1
      · exact Or.inl h1
      · exact Or.inr (List.mem_cons_of_mem _ h1)
    · simp only [replaceFirst, hy, if_false]
      intro hx
      rcases List.mem_cons.mp hx with h1 | h1
      · exact Or.inr (h1 ▸ List.mem_cons_self _ _)
      · rcases mem_replaceFirst p a x ys h1 with h2 | h2
        · exact Or.inl h2
        · exact Or.inr (List.mem_cons_of_mem _ h2)

/-! ## Claims -/

/-- C8 counterexample: file content such as `123` decodes under
`json.load` but is not the expected collection format (a JSON array of
objects), yet `get_all` raises on it instead of returning the empty
collection: session4_model4 propagates the uncaught `TypeError` and
session1_model2 raises `IOError`. -/
theorem c8_counterexample :
    S4.get_allFull FileContent.decodedAtom "f" 0 = Except.error PyException.uncaught ∧
    S1.get_allFull FileContent.decodedAtom "f" 0 = Except.error PyException.ioError :=
  ⟨rfl, rfl⟩

/-- C8 (amended): only content that `json.load` fails to decode is
treated as no data — `get_all` returns the empty collection without
raising in both variants, and session4 rewrites the file to an empty
array.  Content that decodes to a non-array JSON value is not
recovered: a number, boolean or null always raises (session4: the
uncaught iteration `TypeError`; session1: `IOError`), and an object or
string raises in the same way unless it iterates to nothing (an empty
object or empty string still yields the empty collection). -/
theorem c8_corrupted_file_recovery (freshId : String) (now : Nat) :
    (S1.get_allFull FileContent.undecodable freshId now = Except.ok [] ∧
     S4.get_allFull FileContent.undecodable freshId now = Except.ok [] ∧
     S4.loadFull FileContent.undecodable freshId now
       = Except.ok ([], FileContent.decodedArray [])) ∧
    (S1.get_allFull FileContent.decodedAtom freshId now = Except.error PyException.ioError ∧
     S4.get_allFull FileContent.decodedAtom freshId now = Except.error PyException.uncaught) ∧
    (∀ items : List String,
      S1.get_allFull (FileContent.decodedStrings items) freshId now
        = (if items.isEmpty then Except.ok [] else Except.error PyException.ioError) ∧
      S4.get_allFull (FileContent.decodedStrings items) freshId now
        = (if items.isEmpty then Except.ok [] else Except.error PyException.uncaught)) := by
  refine ⟨⟨rfl, rfl, rfl⟩, ⟨rfl, rfl⟩, fun items => ⟨rfl, ?_⟩⟩
  by_cases h : items.isEmpty <;>
    simp [S4.get_allFull, S4.loadFull, h, Except.map]

/-- C2 counterexample: a field map carrying a 201-character title yields
no violation at all in partial mode — the title-length rule is skipped,
contradicting the claim that it still applies. -/
theorem c2_counterexample :
    longTitle.length = 201 ∧
    validate_task_data { title := some longTitle } true = [] :=
  ⟨rfl, rfl⟩

/-- C1 counterexample: the session4_model4 `JSONStorage.save` performs
no validation: saving a task with an empty title (validation errors
non-empty) persists it and changes the collection. -/
theorem c1_counterexample :
    invalidTask.validate = ["Title is required"] ∧
    S4.save [] invalidTask = [invalidTask] :=
  ⟨rfl, rfl⟩

/-- C5 counterexample: the empty string is not a member of the closed
status set, yet supplying it as a status filter does not raise an
invalid-filter error — `get_all_tasks` succeeds. -/
theorem c5_counterexample :
    TaskStatus.allValues.contains "" = false ∧
    TaskManager.get_all_tasks (RawFile.parsed []) (some "") none "f" 0 = Except.ok [] :=
  ⟨rfl, rfl⟩

/-- C1 (amended): the session1_model2 `JSONStorage.save` validates the
task first and fails with a validation error carrying the violation
list whenever the task is invalid, so nothing is persisted; the
session4_model4 variant performs no such validation (see the
counterexample). -/
theorem c1_save_validation (f : RawFile) (t : Task) (h : t.validate ≠ []) :
    S1.save f t = Except.error (ApiError.invalidTaskData t.validate) := by
  simp only [S1.save]
  rw [if_neg]
  simpa using h

/-- C1 witness: the amended theorem applied to a concrete invalid
task. -/
theorem c1_save_validation_witness :
    S1.save (RawFile.parsed []) invalidTask
      = Except.error (ApiError.invalidTaskData invalidTask.validate) :=
  c1_save_validation (RawFile.parsed []) invalidTask (by decide)

/-- C10: an empty-string filter value is falsy in Python and is treated
exactly as an absent filter: no invalid-filter error is raised and the
result equals the unfiltered call, for every storage state. -/
theorem c10_empty_filter (f : RawFile) (sf pf : Option String) (freshId : String) (now : Nat) :
    TaskManager.get_all_tasks f (some "") pf freshId now
      = TaskManager.get_all_tasks f none pf freshId now ∧
    TaskManager.get_all_tasks f sf (some "") freshId now
      = TaskManager.get_all_tasks f sf none freshId now := by
  constructor
  · simp [TaskManager.get_all_tasks, TaskManager.truthy, TaskManager.statusStep]
  · simp [TaskManager.get_all_tasks, TaskManager.truthy, TaskManager.priorityStep]

/-- C2 (amended): in partial mode both title rules (required and
length) are skipped, while the status, priority and description rules
still apply to every field present, one message per violated rule. -/
theorem c2_partial_mode (d : TaskData) :
    (validate_task_data d true).count "Title is required" = 0 ∧
    (validate_task_data d true).count "Title must be less than 200 characters" = 0 ∧
    (validate_task_data d true).count "Invalid status. Must be: pending, in-progress, or completed"
      = (if statusRuleViolated d then 1 else 0) ∧
    (validate_task_data d true).count "Invalid priority. Must be: low, medium, or high"
      = (if priorityRuleViolated d then 1 else 0) ∧
    (validate_task_data d true).count "Description must be less than 1000 characters"
      = (if descriptionRuleViolated d then 1 else 0) := by
  obtain ⟨i, ti, de, st, pr, ca⟩ := d
  simp only [validate_task_data, statusRuleViolated, priorityRuleViolated,
    descriptionRuleViolated]
  cases st <;> cases pr <;> rcases de with _ | (_ | s) <;>
    simp [count_ite, List.count_append, List.count_cons, List.count_nil]

set_option maxRecDepth 100000 in
/-- C7: validation rules are evaluated independently with one message
per violated rule; in particular, creating a task with an empty title
and a 1001-character description fails with a validation error whose
message list contains both the title-required and description-length
violations. -/
theorem c7_validation_aggregation :
    (TaskManager.create_task (RawFile.parsed []) "" (some longDescription)
        "pending" "medium" "f" 0
      = Except.error (ApiError.validation
          ["Title is required", "Description must be less than 1000 characters"])) ∧
    ∀ d : TaskData,
      (validate_task_data d false).count "Title is required"
        = (if titleRequiredViolated d then 1 else 0) ∧
      (validate_task_data d false).count "Title must be less than 200 characters"
        = (if titleLengthViolated d then 1 else 0) ∧
      (validate_task_data d false).count "Invalid status. Must be: pending, in-progress, or completed"
        = (if statusRuleViolated d then 1 else 0) ∧
      (validate_task_data d false).count "Invalid priority. Must be: low, medium, or high"
        = (if priorityRuleViolated d then 1 else 0) ∧
      (validate_task_data d false).count "Description must be less than 1000 characters"
        = (if descriptionRuleViolated d then 1 else 0) := by
  constructor
  · rfl
  · intro d
    obtain ⟨i, ti, de, st, pr, ca⟩ := d
    simp only [validate_task_data, titleRequiredViolated, titleLengthViolated,
      statusRuleViolated, priorityRuleViolated, descriptionRuleViolated]
    rcases ti with _ | t <;> cases st <;> cases pr <;> rcases de with _ | (_ | s) <;>
      simp [count_ite, List.count_append, List.count_cons, List.count_nil] <;>
      split_ifs <;> simp_all <;>
      (rintro rfl; simp_all)

theorem parseStatusField_isOk (v : Option String) :
    (parseStatusField v).isOk = statusParses { status := v } := by
  rcases v with _ | s
  · rfl
  · by_cases hs : s = ""
    · simp [parseStatusField, statusParses, hs, Except.isOk, Except.toBool]
    · cases h : TaskStatus.ofString? s <;>
        simp [parseStatusField, statusParses, hs, h, Except.isOk, Except.toBool]

theorem parsePriorityField_isOk (v : Option String) :
    (parsePriorityField v).isOk = priorityParses { priority := v } := by
  rcases v with _ | p
  · rfl
  · by_cases hp : p = ""
    · simp [parsePriorityField, priorityParses, hp, Except.isOk, Except.toBool]
    · cases h : TaskPriority.ofString? p <;>
        simp [parsePriorityField, priorityParses, hp, h, Except.isOk, Except.toBool]

theorem parseCreatedField_isOk (v : Option String) (now : Nat) :
    (parseCreatedField v now).isOk = createdParses { created_at := v } := by
  rcases v with _ | c
  · rfl
  · by_cases hc : c = ""
    · simp [parseCreatedField, createdParses, hc, Except.isOk, Except.toBool]
    · cases h : fromisoformat c <;>
        simp [parseCreatedField, createdParses, hc, h, Except.isOk, Except.toBool]

theorem parseStatusField_default (v : Option String) (h : v = none ∨ v = some "") :
    parseStatusField v = Except.ok TaskStatus.pending := by
  rcases h with rfl | rfl <;> rfl

theorem parsePriorityField_default (v : Option String) (h : v = none ∨ v = some "") :
    parsePriorityField v = Except.ok TaskPriority.medium := by
  rcases h with rfl | rfl <;> rfl

theorem parseCreatedField_default (v : Option String) (now : Nat)
    (h : v = none ∨ v = some "") : parseCreatedField v now = Except.ok now := by
  rcases h with rfl | rfl <;> rfl

/-- C3: for every valid task, `from_dict (to_dict t)` succeeds and
returns a task equal to `t` in all fields; in particular the serialized
timestamp parses back to the same instant. -/
theorem c3_roundtrip (t : Task) (freshId : String) (now : Nat) (h : t.validate = []) :
    Task.from_dict t.to_dict freshId now = Except.ok t := by
  obtain ⟨title, desc, status, prio, id, ca⟩ := t
  have hs : TaskStatus.ofString? status.value = some status := by cases status <;> rfl
  have hs0 : ¬ status.value = "" := by cases status <;> decide
  have hp : TaskPriority.ofString? prio.value = some prio := by cases prio <;> rfl
  have hp0 : ¬ prio.value = "" := by cases prio <;> decide
  simp [Task.to_dict, Task.from_dict, parseStatusField, parsePriorityField,
    parseCreatedField, hs, hs0, hp, hp0, isoformat_ne_empty ca,
    fromisoformat_isoformat ca, Except.bind]

/-- C3 witness: the round-trip theorem applied to a concrete valid
task. -/
theorem c3_roundtrip_witness :
    sampleTask.validate = [] ∧
    Task.from_dict sampleTask.to_dict "f" 0 = Except.ok sampleTask :=
  ⟨rfl, c3_roundtrip sampleTask "f" 0 rfl⟩

/-- C9: `from_dict` succeeds exactly when each of status, priority and
created_at is absent, empty (falsy) or parsable; a missing or falsy
status defaults to pending, priority to medium and created_at to the
current time, and a missing title defaults to the empty string (a
missing id defaults to a fresh identifier). -/
theorem c9_from_dict_defaults (d : TaskData) (freshId : String) (now : Nat) :
    ((Task.from_dict d freshId now).isOk
      = (statusParses d && priorityParses d && createdParses d)) ∧
    (∀ t, Task.from_dict d freshId now = Except.ok t →
      ((d.status = none ∨ d.status = some "") → t.status = TaskStatus.pending) ∧
      ((d.priority = none ∨ d.priority = some "") → t.priority = TaskPriority.medium) ∧
      ((d.created_at = none ∨ d.created_at = some "") → t.created_at = now) ∧
      (d.title = none → t.title = "") ∧
      (d.id = none → t.id = freshId)) := by
  obtain ⟨i, ti, de, st, pr, ca⟩ := d
  constructor
  · have h1 := parseStatusField_isOk st
    have h2 := parsePriorityField_isOk pr
    have h3 := parseCreatedField_isOk ca now
    cases hs : parseStatusField st with
    | error e =>
      simp_all [Task.from_dict, Except.isOk, Except.toBool, Except.bind,
        statusParses, priorityParses, createdParses]
    | ok status =>
      cases hpr : parsePriorityField pr with
      | error e =>
        simp_all [Task.from_dict, Except.isOk, Except.toBool, Except.bind,
          statusParses, priorityParses, createdParses]
      | ok priority =>
        cases hca : parseCreatedField ca now with
        | error e =>
          simp_all [Task.from_dict, Except.isOk, Except.toBool, Except.bind,
            statusParses, priorityParses, createdParses]
        | ok created =>
          simp_all [Task.from_dict, Except.isOk, Except.toBool, Except.bind,
            statusParses, priorityParses, createdParses]
  · intro t ht
    simp only [Task.from_dict] at ht
    cases hs : parseStatusField st with
    | error e => rw [hs] at ht; exact absurd ht (by simp [Except.bind])
    | ok status =>
      cases hpr : parsePriorityField pr with
      | error e => rw [hs, hpr] at ht; exact absurd ht (by simp [Except.bind])
      | ok priority =>
        cases hca : parseCreatedField ca now with
        | error e => rw [hs, hpr, hca] at ht; exact absurd ht (by simp [Except.bind])
        | ok created =>
          rw [hs, hpr, hca] at ht
          simp only [Except.bind, Except.ok.injEq] at ht
          subst ht
          refine ⟨?_, ?_, ?_, ?_, ?_⟩
          · intro hdef
            have := parseStatusField_default st hdef
            rw [hs] at this
            simpa using this
          · intro hdef
            have := parsePriorityField_default pr hdef
            rw [hpr] at this
            simpa using this
          · intro hdef
            have := parseCreatedField_default ca now hdef
            rw [hca] at this
            simpa using this
          · intro hdef; subst hdef; rfl
          · intro hdef; subst hdef; rfl

/-- C9 witness: the characterization applied to the empty record map:
conversion succeeds and every defaulted field is observable. -/
theorem c9_from_dict_defaults_witness :
    (Task.from_dict {} "f" 7).isOk = true ∧
    Task.from_dict ({} : TaskData) "f" 7 = Except.ok defaultedTask ∧
    defaultedTask.status = TaskStatus.pending ∧
    defaultedTask.priority = TaskPriority.medium := by
  refine ⟨((c9_from_dict_defaults {} "f" 7).1).trans rfl, rfl, ?_, ?_⟩
  · exact ((c9_from_dict_defaults {} "f" 7).2 _ rfl).1 (Or.inl rfl)
  · exact ((c9_from_dict_defaults {} "f" 7).2 _ rfl).2.1 (Or.inl rfl)

theorem statusOfString_isSome_iff (s : String) :
    (TaskStatus.ofString? s).isSome = true ↔ s ∈ TaskStatus.allValues := by
  unfold TaskStatus.ofString?
  split <;> simp_all [TaskStatus.allValues, TaskStatus.value]

theorem priorityOfString_isSome_iff (s : String) :
    (TaskPriority.ofString? s).isSome = true ↔ s ∈ TaskPriority.allValues := by
  unfold TaskPriority.ofString?
  split <;> simp_all [TaskPriority.allValues, TaskPriority.value]

theorem statusOfString_value (s : String) (e : TaskStatus)
    (h : TaskStatus.ofString? s = some e) : TaskStatus.value e = s := by
  unfold TaskStatus.ofString? at h
  split at h <;>
    first
      | (injection h with h2; subst h2; rfl)
      | exact Option.noConfusion h

theorem priorityOfString_value (s : String) (e : TaskPriority)
    (h : TaskPriority.ofString? s = some e) : TaskPriority.value e = s := by
  unfold TaskPriority.ofString? at h
  split at h <;>
    first
      | (injection h with h2; subst h2; rfl)
      | exact Option.noConfusion h

theorem beq_status_value (a b : TaskStatus) : (a == b) = (a.value == b.value) := by
  cases a <;> cases b <;> decide

theorem beq_priority_value (a b : TaskPriority) : (a == b) = (a.value == b.value) := by
  cases a <;> cases b <;> decide

theorem statusStep_ok (tasks : List Task) (sf : Option String)
    (h : filterOk sf TaskStatus.allValues = true) :
    TaskManager.statusStep tasks sf
      = Except.ok (tasks.filter (fun t => matchesStatus sf t)) := by
  by_cases ht : TaskManager.truthy sf = true
  · have hmem : sf.getD "" ∈ TaskStatus.allValues := by
      simp [filterOk, ht] at h
      simpa [List.elem_iff] using h
    obtain ⟨e, he⟩ := Option.isSome_iff_exists.mp
      ((statusOfString_isSome_iff (sf.getD "")).mpr hmem)
    have hval := statusOfString_value _ _ he
    simp only [TaskManager.statusStep, ht, if_true, he]
    congr 1
    apply List.filter_congr
    intro t _
    simp [matchesStatus, ht, beq_status_value, hval]
  · simp only [Bool.not_eq_true] at ht
    have : ∀ t : Task, matchesStatus sf t = true := fun t => by simp [matchesStatus, ht]
    simp [TaskManager.statusStep, ht, List.filter_congr (fun t _ => this t), List.filter_true]

theorem priorityStep_ok (tasks : List Task) (pf : Option String)
    (h : filterOk pf TaskPriority.allValues = true) :
    TaskManager.priorityStep tasks pf
      = Except.ok (tasks.filter (fun t => matchesPriority pf t)) := by
  by_cases ht : TaskManager.truthy pf = true
  · have hmem : pf.getD "" ∈ TaskPriority.allValues := by
      simp [filterOk, ht] at h
      simpa [List.elem_iff] using h
    obtain ⟨e, he⟩ := Option.isSome_iff_exists.mp
      ((priorityOfString_isSome_iff (pf.getD "")).mpr hmem)
    have hval := priorityOfString_value _ _ he
    simp only [TaskManager.priorityStep, ht, if_true, he]
    congr 1
    apply List.filter_congr
    intro t _
    simp [matchesPriority, ht, beq_priority_value, hval]
  · simp only [Bool.not_eq_true] at ht
    have : ∀ t : Task, matchesPriority pf t = true := fun t => by simp [matchesPriority, ht]
    simp [TaskManager.priorityStep, ht, List.filter_congr (fun t _ => this t), List.filter_true]

/-- C5 (amended): `list` fails with an invalid-filter error exactly when
a supplied filter value is truthy (non-empty) and not a member of its
closed set — an empty-string filter value is ignored like an absent one
— and otherwise never raises and returns exactly the stored records
matching every supplied filter (logical AND), in storage order. -/
theorem c5_filter_validation (f : RawFile) (sf pf : Option String)
    (freshId : String) (now : Nat) :
    ((TaskManager.get_all_tasks f sf pf freshId now).isOk
      = (filterOk sf TaskStatus.allValues && filterOk pf TaskPriority.allValues)) ∧
    ((filterOk sf TaskStatus.allValues && filterOk pf TaskPriority.allValues) = true →
      TaskManager.get_all_tasks f sf pf freshId now
        = Except.ok ((S1.get_all f freshId now).filter
            (fun t => matchesStatus sf t && matchesPriority pf t))) := by
  by_cases h1 : TaskManager.truthy sf ∧ sf.getD "" ∉ TaskStatus.allValues
  · have hf : filterOk sf TaskStatus.allValues = false := by
      obtain ⟨ht, hm⟩ := h1
      simp [filterOk, ht, List.elem_iff, hm]
    constructor
    · simp [TaskManager.get_all_tasks, h1, hf, Except.isOk, Except.toBool]
    · intro hok
      rw [hf] at hok
      simp at hok
  · by_cases h2 : TaskManager.truthy pf ∧ pf.getD "" ∉ TaskPriority.allValues
    · have hf : filterOk pf TaskPriority.allValues = false := by
        obtain ⟨ht, hm⟩ := h2
        simp [filterOk, ht, List.elem_iff, hm]
      constructor
      · simp [TaskManager.get_all_tasks, h1, h2, hf, Except.isOk, Except.toBool]
      · intro hok
        rw [hf] at hok
        simp at hok
    · have hfs : filterOk sf TaskStatus.allValues = true := by
        rcases not_and_or.mp h1 with ht | hm
        · simp only [Bool.not_eq_true] at ht
          simp [filterOk, ht]
        · simp only [not_not] at hm
          simp [filterOk, List.elem_iff, hm]
      have hfp : filterOk pf TaskPriority.allValues = true := by
        rcases not_and_or.mp h2 with ht | hm
        · simp only [Bool.not_eq_true] at ht
          simp [filterOk, ht]
        · simp only [not_not] at hm
          simp [filterOk, List.elem_iff, hm]
      have hres : TaskManager.get_all_tasks f sf pf freshId now
          = Except.ok ((S1.get_all f freshId now).filter
              (fun t => matchesStatus sf t && matchesPriority pf t)) := by
        simp only [TaskManager.get_all_tasks, h1, h2, if_false,
          statusStep_ok _ _ hfs, Except.bind, priorityStep_ok _ _ hfp]
        rw [List.filter_filter]
        simp [Bool.and_comm]
      refine ⟨?_, fun _ => hres⟩
      rw [hres, hfs, hfp]
      rfl

/-- C5 witness: the amended theorem applied to a concrete store with a
pending and a completed task and the filter status=pending. -/
theorem c5_filter_validation_witness :
    TaskManager.get_all_tasks
        (RawFile.parsed [sampleTask.to_dict, doneTask.to_dict])
        (some "pending") none "f" 0
      = Except.ok ((S1.get_all (RawFile.parsed [sampleTask.to_dict, doneTask.to_dict]) "f" 0).filter
          (fun t => matchesStatus (some "pending") t && matchesPriority none t)) :=
  (c5_filter_validation (RawFile.parsed [sampleTask.to_dict, doneTask.to_dict])
    (some "pending") none "f" 0).2 rfl

theorem map_id_save (l : List Task) (t : Task) :
    (S4.save l t).map Task.id
      = if t.id ∈ l.map Task.id then l.map Task.id else l.map Task.id ++ [t.id] := by
  induction l with
  | nil => simp [S4.save, replaceFirst]
  | cons x xs ih =>
    simp only [S4.save] at ih ⊢
    by_cases hx : (x.id == t.id) = true
    · have hx2 : x.id = t.id := by simpa using hx
      simp [replaceFirst, hx, hx2, List.mem_cons]
    · have hx2 : ¬ x.id = t.id := by simpa using hx
      by_cases hmem : t.id ∈ xs.map Task.id
      · simp [replaceFirst, hx, List.mem_cons, hmem, ih, Ne.symm hx2]
      · simp [replaceFirst, hx, List.mem_cons, hmem, ih, Ne.symm hx2]

/-- C6: `save` is an upsert and is idempotent.  Assuming the storage
invariant that at most one stored record carries the saved id: saving
twice is the same as saving once, the result holds exactly one record
for that id (the saved task), ids keep their positions (an existing id
is replaced in place, a new id is appended), and no other record is
affected.  The session1_model2 `save` behaves the same on a valid task:
a second identical save returns the identical file. -/
theorem c6_upsert_idempotence (l : List Task) (t : Task)
    (h : (l.filter (fun x => x.id == t.id)).length ≤ 1) :
    S4.save (S4.save l t) t = S4.save l t ∧
    (S4.save l t).filter (fun x => x.id == t.id) = [t] ∧
    ((S4.save l t).map Task.id
      = if t.id ∈ l.map Task.id then l.map Task.id else l.map Task.id ++ [t.id]) ∧
    (∀ x ∈ S4.save l t, ¬ x.id = t.id → x ∈ l) ∧
    (t.validate = [] →
      ∃ f1 : RawFile, S1.save (RawFile.parsed (l.map Task.to_dict)) t = Except.ok f1 ∧
        S1.save f1 t = Except.ok f1) := by
  have hpt : ((fun x : Task => x.id == t.id) t) = true := by simp
  refine ⟨replaceFirst_self _ t hpt l, filter_replaceFirst _ t hpt l h,
    map_id_save l t, ?_, ?_⟩
  · intro x hx hne
    rcases mem_replaceFirst _ t x l hx with rfl | hmem
    · exact absurd rfl hne
    · exact hmem
  · intro hv
    refine ⟨RawFile.parsed
      (replaceFirst (fun d => d.id == some t.id) t.to_dict (l.map Task.to_dict)), ?_, ?_⟩
    · simp [S1.save, hv, S1.load, jsonLoad]
    · simp only [S1.save, hv, List.isEmpty_nil, S1.load, jsonLoad]
      rw [replaceFirst_self _ _ (by simp [Task.to_dict]) _]
      simp

/-- C6 witness: the idempotence theorem applied to the empty store and
a concrete valid task. -/
theorem c6_upsert_idempotence_witness :
    S4.save (S4.save [] sampleTask) sampleTask = S4.save [] sampleTask ∧
    (S4.save [] sampleTask).filter (fun x => x.id == sampleTask.id) = [sampleTask] ∧
    (∃ f1 : RawFile,
      S1.save (RawFile.parsed (([] : List Task).map Task.to_dict)) sampleTask
        = Except.ok f1 ∧
      S1.save f1 sampleTask = Except.ok f1) := by
  have H := c6_upsert_idempotence [] sampleTask (by decide)
  exact ⟨H.1, H.2.1, H.2.2.2.2 (by decide)⟩

theorem applyUpdates_ok (task : Task) (updates : TaskData) (t4 : Task)
    (h : TaskManager.applyUpdates task updates = Except.ok t4) :
    t4.id = task.id ∧ t4.created_at = task.created_at ∧
    (updates.title = none → t4.title = task.title) ∧
    (updates.description = none → t4.description = task.description) ∧
    (updates.status = none → t4.status = task.status) ∧
    (updates.priority = none → t4.priority = task.priority) := by
  obtain ⟨ui, ut, ud, us, up, uc⟩ := updates
  simp only [TaskManager.applyUpdates] at h
  rcases us with _ | ss <;> rcases up with _ | ps <;>
    simp only [Except.bind] at h
  · injection h with h2
    subst h2
    rcases ut with _ | ts <;> rcases ud with _ | dv <;> simp
  · cases hps : TaskPriority.ofString? ps <;> simp only [hps] at h
    · exact absurd h (by simp)
    · injection h with h2
      subst h2
      rcases ut with _ | ts <;> rcases ud with _ | dv <;> simp
  · cases hss : TaskStatus.ofString? ss <;> simp only [hss] at h
    · exact absurd h (by simp)
    · injection h with h2
      subst h2
      rcases ut with _ | ts <;> rcases ud with _ | dv <;> simp
  · cases hss : TaskStatus.ofString? ss <;> simp only [hss] at h
    · exact absurd h (by simp)
    · cases hps : TaskPriority.ofString? ps <;> simp only [hps] at h
      · exact absurd h (by simp)
      · injection h with h2
        subst h2
        rcases ut with _ | ts <;> rcases ud with _ | dv <;> simp

/-- C4: a successful `update_task` changes only the fields present in
the patch: the returned task keeps the stored task's id and created_at
unconditionally, and every field absent from the patch keeps its
previous value. -/
theorem c4_update_frame (f : RawFile) (task_id : String) (updates : TaskData)
    (freshId : String) (now : Nat) (f2 : RawFile) (t2 : Task)
    (h : TaskManager.update_task f task_id updates freshId now = Except.ok (f2, t2)) :
    ∃ t0, S1.get_by_id f task_id freshId now = some t0 ∧
      t2.id = t0.id ∧ t2.created_at = t0.created_at ∧
      (updates.title = none → t2.title = t0.title) ∧
      (updates.description = none → t2.description = t0.description) ∧
      (updates.status = none → t2.status = t0.status) ∧
      (updates.priority = none → t2.priority = t0.priority) := by
  unfold TaskManager.update_task at h
  cases hg : S1.get_by_id f task_id freshId now with
  | none => rw [hg] at h; simp at h
  | some task =>
    rw [hg] at h
    dsimp only at h
    split at h
    · cases ha : TaskManager.applyUpdates task updates with
      | error e => rw [ha] at h; simp [Except.bind] at h
      | ok t4 =>
        rw [ha] at h
        simp only [Except.bind] at h
        split at h
        · cases hsv : S1.save f t4 with
          | error e => rw [hsv] at h; simp [Except.map] at h
          | ok f1 =>
            rw [hsv] at h
            simp only [Except.map] at h
            injection h with h2
            have h5 : t4 = t2 := congrArg Prod.snd h2
            subst h5
            exact ⟨task, rfl, applyUpdates_ok task updates t4 ha⟩
        · simp at h
    · simp at h

/-- C4 witness: the frame theorem applied to the spec scenario — a
stored low-priority task "A" updated with a status-only patch. -/
theorem c4_update_frame_witness :
    ∃ t0, S1.get_by_id (RawFile.parsed [lowTask.to_dict]) "u1" "f" 9 = some t0 ∧
      lowTaskDone.id = t0.id ∧ lowTaskDone.created_at = t0.created_at ∧
      (statusPatch.title = none → lowTaskDone.title = t0.title) ∧
      (statusPatch.description = none → lowTaskDone.description = t0.description) ∧
      (statusPatch.status = none → lowTaskDone.status = t0.status) ∧
      (statusPatch.priority = none → lowTaskDone.priority = t0.priority) :=
  c4_update_frame (RawFile.parsed [lowTask.to_dict]) "u1" statusPatch "f" 9
    (RawFile.parsed [lowTaskDone.to_dict]) lowTaskDone (by decide)

end TaskApp
